import Mathlib

/-!
Shallow embedding of the job-orchestration core of `mcn_server.py`
(YJ MCN automation dashboard server, V3.1) together with proofs about
its retention sweeper, pipeline runners, state machines and SSE
stream adapters.

Conventions used throughout the embedding:
* Python dictionaries keyed by strings become Lean structures or
  association lists; absent keys become `Option` fields.
* `datetime` timestamps become `Nat` seconds; `(now - created).total_seconds()`
  becomes truncated `Nat` subtraction (both sides agree on the comparisons
  performed by the code).
* A call into an external collaborator (scraper, AI generator, renderer,
  uploader, ...) is abstracted as a `Res α` value supplied as a parameter:
  `.ok a` is a normal return and `.exn m` models the call raising an
  exception with message `m`.  The orchestration logic (event emission,
  try/except structure, state updates) is translated faithfully from the
  source; only the opaque payloads of the collaborators are abstracted.
-/

namespace MCN

/-- Outcome of a call into an external collaborator: normal return or a
raised exception with message `m`. -/
inductive Res (α : Type) where
  | ok (a : α)
  | exn (m : String)
deriving DecidableEq, Repr

/-! ## Retention sweeper (`_cleanup_old_jobs`, mcn_server.py lines 324-339)

The sweeper iterates over a jobs dict.  Each job stores `created_at`
(ISO timestamp) and either a `status` key (V1 jobs) or a `state` key
(V2/V3 jobs).  A job is collected when its age exceeds `max_age_seconds`
and its status/state is not in the `active_states` tuple
`("running", "pending", "analyzing", "awaiting_confirm", "executing")`. -/

/-- One entry of a jobs dict, as read by `_cleanup_old_jobs`:
`job.get("created_at", now)`, `job.get("status", job.get("state", ""))`. -/
structure CleanupJob where
  created_at : Option Nat
  status : Option String
  state : Option String
deriving DecidableEq, Repr

/-- `job.get("status", job.get("state", ""))`. -/
def cleanupStatusOf (j : CleanupJob) : String :=
  j.status.getD (j.state.getD "")

/-- The `active_states` tuple of `_cleanup_old_jobs`. -/
def cleanupActiveStates : List String :=
  ["running", "pending", "analyzing", "awaiting_confirm", "executing"]

/-- The removal condition of `_cleanup_old_jobs`:
`(now - created).total_seconds() > max_age_seconds and status not in active_states`. -/
def cleanupShouldRemove (j : CleanupJob) (now maxAge : Nat) : Bool :=
  decide (now - j.created_at.getD now > maxAge)
    && !(cleanupActiveStates.contains (cleanupStatusOf j))

/-- `_cleanup_old_jobs(jobs_dict, max_age_seconds=3600)`: removes every
entry satisfying the removal condition, keeps the rest. -/
def cleanup_old_jobs (jobsDict : List (String × CleanupJob)) (now : Nat)
    (maxAge : Nat := 3600) : List (String × CleanupJob) :=
  jobsDict.filter (fun p => !cleanupShouldRemove p.2 now maxAge)

/-! ## V1 pipeline (`WebPipeline.run`, lines 128-317, and `start_campaign`'s
worker, lines 437-453)

The V1 runner executes seven steps.  Steps 1-2 re-raise on failure (fatal
tier), steps 3-5 catch the exception, record an empty result and continue
(soft-fail tier), steps 6-7 are fully guarded and cannot abort the run. -/

/-- One `{"type": "step", ...}` SSE event as emitted by `WebPipeline._emit`
(the timestamp field is omitted from the model). -/
structure V1Event where
  step : Nat
  name : String
  status : String
  detail : String
deriving DecidableEq, Repr

/-- The keys of `PLATFORM_MAP`. -/
def PLATFORM_MAP_keys : List String := ["youtube", "instagram", "naver_blog"]

/-- Result of `archiver.archive_campaign` as consumed by step 7. -/
structure ArchiveResult where
  ok : Bool
  folder_url : String
  files_uploaded : Nat
  errors : List String
deriving DecidableEq, Repr

/-- Outcomes of the external-collaborator calls made by `WebPipeline.run`.
Platform contents are abstracted to `(platform, narration scenes, hashtag
count)`; media/thumbnails/videos to their paths. -/
structure V1Handlers where
  prepare_product : Res String
  generate_contents : Res (List (String × Nat × Nat))
  collect_media : Res (List String)
  generate_thumbnails : Res (List (String × String))
  render_videos : Res (List (String × String))
  upload_all : Res Unit
  drive_authenticate : Res Bool
  archive_campaign : Res ArchiveResult
  drive_total_files : Nat
deriving DecidableEq, Repr

/-- Step 3 (media): on exception, emit an `error` event and set `images = []`. -/
def v1Step3 (r : Res (List String)) : List V1Event × List String :=
  let run3 : V1Event := ⟨3, "media", "running", "무료 스톡 이미지 수집 중..."⟩
  match r with
  | .exn m => ([run3, ⟨3, "media", "error", m⟩], [])
  | .ok imgs =>
    ([run3, ⟨3, "media", "complete", "이미지 " ++ toString imgs.length ++ "개 수집"⟩], imgs)

/-- Step 4 (thumbnail): on exception, emit an `error` event and set
`thumbnails = {}`. -/
def v1Step4 (r : Res (List (String × String))) : List V1Event × List (String × String) :=
  let run4 : V1Event := ⟨4, "thumbnail", "running", "플랫폼별 썸네일 생성 중..."⟩
  match r with
  | .exn m => ([run4, ⟨4, "thumbnail", "error", m⟩], [])
  | .ok thumbs =>
    ([run4, ⟨4, "thumbnail", "complete", toString thumbs.length ++ "개 썸네일 생성"⟩], thumbs)

/-- Step 5 (video render): on exception, emit an `error` event and set
`videos = {}`.  The success detail counts the truthy entries
(`[p for p, v in videos.items() if v]`). -/
def v1Step5 (r : Res (List (String × String))) : List V1Event × List (String × String) :=
  let run5 : V1Event := ⟨5, "video_render", "running", "영상 렌더링 중 (시간 소요)..."⟩
  match r with
  | .exn m => ([run5, ⟨5, "video_render", "error", m⟩], [])
  | .ok videos =>
    let rendered := videos.filter (fun v => v.2 ≠ "")
    ([run5, ⟨5, "video_render", "complete",
        toString rendered.length ++ "개 영상 렌더링 완료"⟩], videos)

/-- Step 6 (upload): guarded by `auto_upload`; on exception the error is
caught and recorded as an event only. -/
def v1Step6 (auto_upload : Bool) (r : Res Unit) : List V1Event × Bool :=
  if auto_upload then
    let run6 : V1Event := ⟨6, "upload", "running", "3플랫폼 업로드 중..."⟩
    match r with
    | .exn m => ([run6, ⟨6, "upload", "error", m⟩], false)
    | .ok _ => ([run6, ⟨6, "upload", "complete", "업로드 완료"⟩], true)
  else ([⟨6, "upload", "skipped", "업로드 건너뜀 (수동 모드)"⟩], false)

/-- Step 7 (Drive archive): guarded by `drive_archive`; every failure mode
(exception, failed authentication, partial archive failure) is caught and
recorded as an `error` event. -/
def v1Step7 (drive_archive : Bool) (auth : Res Bool) (arch : Res ArchiveResult)
    (totalFiles : Nat) : List V1Event × Option (String × Nat) :=
  if drive_archive then
    let run7 : V1Event := ⟨7, "drive_archive", "running", "Google Drive 폴더 생성 및 업로드 중..."⟩
    let runFiles : V1Event :=
      ⟨7, "drive_archive", "running", toString totalFiles ++ "개 파일 Drive 업로드 중..."⟩
    match auth with
    | .exn m => ([run7, runFiles, ⟨7, "drive_archive", "error", m⟩], none)
    | .ok false =>
      ([run7, runFiles,
        ⟨7, "drive_archive", "error", "Drive 인증 실패 — OAuth 토큰을 확인하세요"⟩], none)
    | .ok true =>
      match arch with
      | .exn m => ([run7, runFiles, ⟨7, "drive_archive", "error", m⟩], none)
      | .ok res =>
        if res.ok then
          ([run7, runFiles,
            ⟨7, "drive_archive", "complete",
              "Drive 아카이빙 완료: " ++ toString res.files_uploaded ++ "개 파일 업로드"⟩],
           some (res.folder_url, res.files_uploaded))
        else
          ([run7, runFiles,
            ⟨7, "drive_archive", "error",
              "일부 실패: " ++ String.intercalate ", " (res.errors.take 3)⟩], none)
  else ([⟨7, "drive_archive", "skipped", "Drive 아카이빙 건너뜀"⟩], none)

/-- The slice of the worker's `results` dict that the orchestrator itself
writes (stage results and Drive outcome). -/
structure V1Results where
  images : List String
  thumbnails : List (String × String)
  videos : List (String × String)
  upload_done : Bool
  drive : Option (String × Nat)
deriving DecidableEq, Repr

/-- `WebPipeline.run`: emits the step events in order and either returns
the assembled results or re-raises the step-1/step-2 exception. -/
def WebPipeline.run (h : V1Handlers) (platforms : List String)
    (auto_upload drive_archive : Bool) : List V1Event × Res V1Results :=
  let pe := platforms.filter (fun p => PLATFORM_MAP_keys.contains p)
  let platform_enums := if pe.isEmpty then PLATFORM_MAP_keys else pe
  let run1 : V1Event := ⟨1, "product_info", "running", "상품 정보 수집 중..."⟩
  match h.prepare_product with
  | .exn m => ([run1, ⟨1, "product_info", "error", m⟩], .exn m)
  | .ok title =>
    let evs1 := [run1, ⟨1, "product_info", "complete", "상품: " ++ title⟩]
    let run2 : V1Event :=
      ⟨2, "ai_content", "running", toString platform_enums.length ++ "개 플랫폼 AI 콘텐츠 생성 중..."⟩
    match h.generate_contents with
    | .exn m => (evs1 ++ [run2, ⟨2, "ai_content", "error", m⟩], .exn m)
    | .ok contents =>
      let detail2 := String.intercalate " | " (contents.map (fun c =>
        c.1 ++ ": 나레이션 " ++ toString c.2.1 ++ "장면, 태그 " ++ toString c.2.2 ++ "개"))
      let evs2 := evs1 ++ [run2, ⟨2, "ai_content", "complete", detail2⟩]
      let s3 := v1Step3 h.collect_media
      let s4 := v1Step4 h.generate_thumbnails
      let s5 := v1Step5 h.render_videos
      let s6 := v1Step6 auto_upload h.upload_all
      let s7 := v1Step7 drive_archive h.drive_authenticate h.archive_campaign h.drive_total_files
      (evs2 ++ s3.1 ++ s4.1 ++ s5.1 ++ s6.1 ++ s7.1,
       .ok { images := s3.2, thumbnails := s4.2, videos := s5.2,
             upload_done := s6.2, drive := s7.2 })

/-- An entry of the V1 job's event queue: step events from the runner plus
the worker's terminal `{"type": "complete"}` / `{"type": "error"}` event. -/
inductive V1QEvent where
  | step (e : V1Event)
  | complete (results : V1Results)
  | error (m : String)
deriving DecidableEq, Repr

/-- The V1 Job Record fields the worker writes (lines 422-453). -/
structure V1Job where
  status : String
  results : Option V1Results
  error : Option String
  queue : List V1QEvent
deriving DecidableEq, Repr

/-- The `worker` closure of `start_campaign`: runs the pipeline, then sets
the terminal status, results/error and the terminal queue event. -/
def start_campaign_worker (h : V1Handlers) (platforms : List String)
    (auto_upload drive_archive : Bool) : V1Job :=
  match WebPipeline.run h platforms auto_upload drive_archive with
  | (evs, .ok r) =>
    { status := "complete", results := some r, error := none,
      queue := evs.map V1QEvent.step ++ [V1QEvent.complete r] }
  | (evs, .exn m) =>
    { status := "error", results := none, error := some m,
      queue := evs.map V1QEvent.step ++ [V1QEvent.error m] }

/-! ## V2 interactive pipeline (`V2PipelineState`, `v2_start_campaign`,
`v2_submit_link`, `v2_confirm_execute` and their worker threads,
lines 854-1660) -/

/-- `V2PipelineState` enum. -/
inductive V2State where
  | idle
  | awaiting_link
  | analyzing
  | awaiting_confirm
  | executing
  | complete
  | error
deriving DecidableEq, Repr

/-- The string value of each `V2PipelineState` member. -/
def V2State.toStr : V2State → String
  | .idle => "idle"
  | .awaiting_link => "awaiting_link"
  | .analyzing => "analyzing"
  | .awaiting_confirm => "awaiting_confirm"
  | .executing => "executing"
  | .complete => "complete"
  | .error => "error"

/-- Python's `str.strip()` (no arguments): drop leading and trailing
whitespace. -/
def pyStrip (s : String) : String :=
  String.mk (((s.data.dropWhile Char.isWhitespace).reverse.dropWhile Char.isWhitespace).reverse)

/-- The quote characters accepted by the banner-tag regex
`alt=["']([^"']+)["']` (the second is the apostrophe, code point 39). -/
def isAltQuote (c : Char) : Bool := c = '"' || c = Char.ofNat 39

/-- Try to match `alt=["']([^"']+)["']` at the head of the character list. -/
def altMatchAt : List Char → Option String
  | 'a' :: 'l' :: 't' :: '=' :: q :: rest =>
    if isAltQuote q then
      let cap := rest.takeWhile (fun c => !isAltQuote c)
      let after := rest.drop cap.length
      match after with
      | c :: _ => if cap.isEmpty then none else if isAltQuote c then some (String.mk cap) else none
      | [] => none
    else none
  | _ => none

/-- Leftmost-match search of the `alt=` regex, as `re.search` performs it. -/
def altSearch : List Char → Option String
  | [] => none
  | c :: rest =>
    match altMatchAt (c :: rest) with
    | some s => some s
    | none => altSearch rest

/-- `re.search(r'alt=["\x7b1\x7d([^"\x7b1\x7d]+)["\x7b1\x7d]', banner_tag)` followed by
`.group(1).strip()` (the product-name fallback of `v2_submit_link`). -/
def extractAltProductName (banner : String) : Option String :=
  (altSearch banner.data).map pyStrip

/-- One entry of the V2 job's event queue (timestamps omitted; the draft
payload attached to the `awaiting_confirm` state change is omitted). -/
structure V2StepEvent where
  step : Nat
  name : String
  status : String
  detail : String
deriving DecidableEq, Repr

inductive V2QEvent where
  | state_change (s : V2State) (message : String)
  | v2_step (e : V2StepEvent)
  | v2_complete
  | error (m : String)
deriving DecidableEq, Repr

/-- The slice of the V2 job's `results` dict written by the executor. -/
structure V2Results where
  blog_html : String := ""
  blog_images : List String := []
  shorts_path : Option String := none
  laundered_count : Nat := 0
  upload_results : List (String × String) := []
  drive_url : Option String := none
deriving DecidableEq, Repr

/-- The V2 Job Record (`v2_jobs[job_id]`).  Payloads of external
collaborators are abstracted: `product_info` to the product title,
`draft_blog` to the number of blog body sections, `shorts_script` to the
scene count. -/
structure V2Job where
  state : V2State
  coupang_link : Option String := none
  affiliate_link : Option String := none
  banner_tag : Option String := none
  product_name : Option String := none
  product_info : Option String := none
  draft_blog : Option Nat := none
  shorts_script : Option Nat := none
  results : V2Results := {}
  error : Option String := none
  events : List V2QEvent := []
  created_at : Nat := 0
  upload_youtube : Option Bool := none
  upload_instagram : Option Bool := none
  upload_naver : Option Bool := none
deriving DecidableEq, Repr

/-- `v2_start_campaign` (lines 854-888): fresh job in `AWAITING_LINK` with
the greeting state-change event queued. -/
def v2_start_campaign (now : Nat) : V2Job :=
  { state := .awaiting_link,
    events := [.state_change .awaiting_link "🔗 쿠팡 파트너스 링크를 입력해 주세요!"],
    created_at := now }

/-- Body of the V2 link-submission request (`request.json or \x7b\x7d`, each
field read with `.get(key, "").strip()`). -/
structure V2LinkReq where
  coupang_link : String := ""
  affiliate_link : String := ""
  banner_tag : String := ""
  product_name : String := ""
deriving DecidableEq, Repr

/-- Synchronous responses of the V2/V3 endpoints: 404 not-found, 400
state-conflict, 400 validation error, or 200 acknowledgment carrying the
new state string. -/
inductive ApiResp where
  | not_found
  | state_conflict (m : String)
  | validation_error (m : String)
  | accepted (state : String)
deriving DecidableEq, Repr

/-- `v2_submit_link` (lines 890-939, synchronous part): guard on
`AWAITING_LINK`, extract the fallback product name from the banner tag,
validate the two links, then record the inputs, move to `ANALYZING` and
queue the state-change event.  The asynchronous `analyze()` thread is
modelled separately by `v2_analyze`. -/
def v2_submit_link (jobOpt : Option V2Job) (req : V2LinkReq) : ApiResp × Option V2Job :=
  match jobOpt with
  | none => (.not_found, none)
  | some job =>
    if job.state ≠ .awaiting_link then
      (.state_conflict ("현재 상태: " ++ job.state.toStr ++ ", 링크 입력 불가"), some job)
    else
      let coupang_link := pyStrip req.coupang_link
      let affiliate_link := pyStrip req.affiliate_link
      let banner_tag := pyStrip req.banner_tag
      let pn0 := pyStrip req.product_name
      let product_name :=
        if pn0 = "" && banner_tag ≠ "" then (extractAltProductName banner_tag).getD pn0
        else pn0
      if coupang_link = "" then (.validation_error "상품정보 링크 필수", some job)
      else if affiliate_link = "" then (.validation_error "단축 URL 필수", some job)
      else
        (.accepted "analyzing",
         some { job with
            coupang_link := some coupang_link,
            affiliate_link := some affiliate_link,
            banner_tag := some banner_tag,
            product_name := some product_name,
            state := .analyzing,
            events := job.events ++ [.state_change .analyzing "🔍 상품 분석 중..."] })

/-- Outcomes of the external calls made by the V2 `analyze()` thread.
`prepare_product` covers scraping plus the title-fallback logic (an
exception escapes to the outer handler); `blog_content` is guarded by the
inner try (soft); `shorts_script` by the innermost try (soft). -/
structure V2AnalyzeHandlers where
  prepare_product : Res String
  blog_content : Res Nat
  shorts_script : Res Nat
deriving DecidableEq, Repr

/-- The V2 `analyze()` thread (lines 941-1090): emits step 1-3 events,
stores the draft, and moves to `AWAITING_CONFIRM`; an uncaught exception
moves to `ERROR` with the error event queued. -/
def v2_analyze (job : V2Job) (h : V2AnalyzeHandlers) : V2Job :=
  let ev1 : V2QEvent := .v2_step ⟨1, "prep_report", "complete", "V2 파이프라인 초기화 완료"⟩
  let ev2r : V2QEvent := .v2_step ⟨2, "link_analysis", "running", "쿠팡 링크 스크래핑 중..."⟩
  match h.prepare_product with
  | .exn m =>
    { job with
      state := .error,
      error := some m,
      events := job.events ++ [ev1, ev2r, .error m] }
  | .ok title =>
    let ev2c : V2QEvent := .v2_step ⟨2, "link_analysis", "complete", "상품: " ++ title⟩
    let ev3r : V2QEvent :=
      .v2_step ⟨3, "ai_content", "running", "블로그 + 숏폼 대본 AI 생성 중 (Gemini 무료)..."⟩
    let awaitMsg := "✅ 분석 완료! 초안을 확인하고 실행 버튼을 눌러주세요."
    match h.blog_content with
    | .exn m =>
      { job with
        state := .awaiting_confirm,
        product_info := some title,
        events := job.events ++
          [ev1, ev2r, ev2c, ev3r, .v2_step ⟨3, "ai_content", "error", m⟩,
           .state_change .awaiting_confirm awaitMsg] }
    | .ok sections =>
      let shorts := match h.shorts_script with
        | .exn _ => none
        | .ok scenes => some scenes
      { job with
        state := .awaiting_confirm,
        product_info := some title,
        draft_blog := some sections,
        shorts_script := shorts,
        events := job.events ++
          [ev1, ev2r, ev2c, ev3r,
           .v2_step ⟨3, "ai_content", "complete",
             "블로그 " ++ toString sections ++ "섹션 + 숏폼 대본 생성 완료"⟩,
           .state_change .awaiting_confirm awaitMsg] }

/-- Body of the V2 confirm request: the three upload toggles, each read
with `confirm_data.get(key, False)` (absent key modelled as `none`). -/
structure V2ConfirmReq where
  upload_youtube : Option Bool := none
  upload_instagram : Option Bool := none
  upload_naver : Option Bool := none
deriving DecidableEq, Repr

/-- `v2_confirm_execute` (lines 1096-1130, synchronous part): guard on
`AWAITING_CONFIRM`, store the upload toggles, move to `EXECUTING` and
queue the state-change event.  The asynchronous `execute()` thread is
modelled separately by `v2_execute`. -/
def v2_confirm_execute (jobOpt : Option V2Job) (req : V2ConfirmReq) : ApiResp × Option V2Job :=
  match jobOpt with
  | none => (.not_found, none)
  | some job =>
    if job.state ≠ .awaiting_confirm then
      (.state_conflict ("현재 상태: " ++ job.state.toStr ++ ", 실행 확인 불가"), some job)
    else
      (.accepted "executing",
       some { job with
          upload_youtube := some (req.upload_youtube.getD false),
          upload_instagram := some (req.upload_instagram.getD false),
          upload_naver := some (req.upload_naver.getD false),
          state := .executing,
          events := job.events ++
            [.state_change .executing "🚀 실행 시작! 10단계 파이프라인 진행 중..."] })

/-- Outcomes of the external calls made by the V2 `execute()` thread
(steps 4-10; every call is wrapped in a try/except that records the
failure as a step `error` event and continues).  Per-platform upload
calls return `.ok (some r)` on a truthy upload result, `.ok none` when
authentication fails or the result is falsy, `.exn m` when the call
raises (recorded under the `*_error` key). -/
structure V2ExecHandlers where
  media_crawl : Res (List String × Nat × Nat)
  blog_compose : Res String
  video_launder : Res Nat
  shorts_render : Res (Option String)
  upload_youtube_call : Res (Option String)
  upload_instagram_call : Res (Option String)
  upload_naver_call : Res (Option String)
  drive_auth : Res Bool
  drive_archive_call : Res (Option String)
deriving DecidableEq, Repr

/-- `if b then "ON" else "OFF"` used in the step-9 running detail. -/
def onOff (b : Bool) : String := if b then "ON" else "OFF"

/-- The V2 `execute()` thread (lines 1119-1660): runs steps 4-10 with
per-step error isolation, applies the stored upload toggles in step 9,
then moves the job to `COMPLETE` and queues the `v2_complete` event.
No statement of the thread's body can escape the per-step handlers, so
the thread always terminates the job in `COMPLETE`. -/
def v2_execute (job : V2Job) (h : V2ExecHandlers) : V2Job :=
  let uy := job.upload_youtube.getD false
  let ui := job.upload_instagram.getD false
  let un := job.upload_naver.getD false
  let any_upload := uy || ui || un
  -- Step 4: media crawl
  let run4 : V2QEvent := .v2_step ⟨4, "media_crawl", "running",
    "Gemini 키워드 분석 + 미디어 수집 + AI 이미지 생성..."⟩
  let s4 : List V2QEvent × List String :=
    match h.media_crawl with
    | .exn m => ([run4, .v2_step ⟨4, "media_crawl", "error", m⟩], [])
    | .ok (imgs, aiN, vidN) =>
      ([run4, .v2_step ⟨4, "media_crawl", "complete",
        "크롤링 이미지 " ++ toString (imgs.length - aiN) ++ "장 + AI 이미지 " ++
          toString aiN ++ "장 + 영상 " ++ toString vidN ++ "개 수집"⟩], imgs)
  let blog_images := s4.2
  -- Step 5: blog HTML
  let run5 : V2QEvent := .v2_step ⟨5, "blog_compose", "running",
    "이미지-텍스트 교차 배치 HTML 생성 중..."⟩
  let s5 : List V2QEvent × String :=
    match h.blog_compose with
    | .exn m => ([run5, .v2_step ⟨5, "blog_compose", "error", m⟩], "")
    | .ok html =>
      ([run5, .v2_step ⟨5, "blog_compose", "complete",
        "HTML " ++ toString html.length ++ "자 생성 (이미지 " ++
          toString blog_images.length ++ "장 교차 배치)"⟩], html)
  let blog_html := s5.2
  -- Step 6: video laundering (or image-to-clip fallback)
  let run6 : V2QEvent := .v2_step ⟨6, "video_launder", "running", "4단계 FFmpeg GPU 세탁 중..."⟩
  let s6 : List V2QEvent × Nat :=
    match h.video_launder with
    | .exn m => ([run6, .v2_step ⟨6, "video_launder", "error", m⟩], 0)
    | .ok n =>
      ([run6, .v2_step ⟨6, "video_launder", "complete",
        toString n ++ "개 영상 세탁 완료"⟩], n)
  let laundered := s6.2
  -- Step 7: shorts rendering
  let run7 : V2QEvent := .v2_step ⟨7, "shorts_render", "running",
    "TTS + 자막 싱크 + 숏폼 조립 중..."⟩
  let s7 : List V2QEvent × Option String :=
    match h.shorts_render with
    | .exn m => ([run7, .v2_step ⟨7, "shorts_render", "error", m⟩], none)
    | .ok p => ([run7, .v2_step ⟨7, "shorts_render", "complete",
        match p with
        | some path => "숏폼 렌더링 완료: " ++ path
        | none => "숏폼 스킵"⟩], p)
  let shorts_path := s7.2
  -- Step 8: thumbnail (V1 reuse; emits complete unconditionally)
  let ev8 : List V2QEvent :=
    [.v2_step ⟨8, "thumbnail", "running", "플랫폼별 썸네일 생성 중..."⟩,
     .v2_step ⟨8, "thumbnail", "complete", "썸네일 생성 완료 (또는 생략)"⟩]
  -- Step 9: platform uploads gated on the stored toggles
  let run9 : V2QEvent := .v2_step ⟨9, "upload_ready", "running",
    "업로드: YT=" ++ onOff uy ++ " | IG=" ++ onOff ui ++ " | Blog=" ++ onOff un⟩
  let upYT : List (String × String) × Bool :=
    if uy && shorts_path.isSome then
      match h.upload_youtube_call with
      | .exn m => ([("youtube_error", m)], false)
      | .ok (some r) => ([("youtube", r)], true)
      | .ok none => ([], false)
    else ([], false)
  let upIG : List (String × String) × Bool :=
    if ui && shorts_path.isSome then
      match h.upload_instagram_call with
      | .exn m => ([("instagram_error", m)], false)
      | .ok (some r) => ([("instagram", r)], true)
      | .ok none => ([], false)
    else ([], false)
  let upNV : List (String × String) × Bool :=
    if un && blog_html ≠ "" then
      match h.upload_naver_call with
      | .exn m => ([("naver_error", m)], false)
      | .ok (some r) => ([("naver", r)], true)
      | .ok none => ([], false)
    else ([], false)
  let upload_results := if any_upload then upYT.1 ++ upIG.1 ++ upNV.1 else []
  let uploaded :=
    (if upYT.2 then ["YouTube"] else []) ++ (if upIG.2 then ["Instagram"] else []) ++
      (if upNV.2 then ["Naver"] else [])
  let upload_detail :=
    if any_upload then
      if uploaded.isEmpty then "업로드 대상 없음"
      else "업로드 완료: " ++ String.intercalate ", " uploaded
    else "자동 업로드 OFF — 결과물 확인 후 수동 업로드"
  let ev9 : List V2QEvent := [run9, .v2_step ⟨9, "upload_ready", "complete", upload_detail⟩]
  -- Step 10: Drive archiving
  let run10 : V2QEvent := .v2_step ⟨10, "drive_archive", "running", "Google Drive 아카이빙 중..."⟩
  let s10 : List V2QEvent × Option String :=
    match h.drive_auth with
    | .exn m => ([run10, .v2_step ⟨10, "drive_archive", "error", m⟩], none)
    | .ok false => ([run10, .v2_step ⟨10, "drive_archive", "error", "Drive 인증 실패"⟩], none)
    | .ok true =>
      match h.drive_archive_call with
      | .exn m => ([run10, .v2_step ⟨10, "drive_archive", "error", m⟩], none)
      | .ok none =>
        ([run10, .v2_step ⟨10, "drive_archive", "error", "Drive 업로드 일부 실패"⟩], none)
      | .ok (some url) =>
        ([run10, .v2_step ⟨10, "drive_archive", "complete",
          "Drive 아카이빙 완료 (3 플랫폼)"⟩], some url)
  { job with
    state := .complete,
    results :=
      { blog_html := blog_html,
        blog_images := blog_images,
        shorts_path := shorts_path,
        laundered_count := laundered,
        upload_results := upload_results,
        drive_url := s10.2 },
    events := job.events ++ s4.1 ++ s5.1 ++ s6.1 ++ s7.1 ++ ev8 ++ ev9 ++ s10.1 ++
      [.v2_complete] }

/-! ### The V2 job as a transition system

Client calls (`submit link`, `confirm`) apply their endpoint functions;
runner completions (`analyze` / `execute` thread finishing) apply the
thread bodies.  A runner completion can only happen in the state that
spawned the thread (the thread is created exactly at that transition and
no other entry point can change the state while it runs), which the
`if`-guards encode. -/

inductive V2Op where
  | submitLink (req : V2LinkReq)
  | analyzeDone (h : V2AnalyzeHandlers)
  | confirm (req : V2ConfirmReq)
  | executeDone (h : V2ExecHandlers)

/-- Apply one operation to a V2 job. -/
def v2_apply (job : V2Job) : V2Op → V2Job
  | .submitLink req => ((v2_submit_link (some job) req).2).getD job
  | .analyzeDone h => if job.state = .analyzing then v2_analyze job h else job
  | .confirm req => ((v2_confirm_execute (some job) req).2).getD job
  | .executeDone h => if job.state = .executing then v2_execute job h else job

/-- Position of each state along the forward order of the V2 state
machine; `error` sits past `complete` so that entering it from any
non-terminal state is a forward move. -/
def v2StateIdx : V2State → Nat
  | .idle => 0
  | .awaiting_link => 1
  | .analyzing => 2
  | .awaiting_confirm => 3
  | .executing => 4
  | .complete => 5
  | .error => 6

/-- `complete` and `error` are the terminal states. -/
def V2State.isTerminal : V2State → Bool
  | .complete => true
  | .error => true
  | _ => false

/-! ## V3 pipeline (`V3PipelineState`, `V3WebPipeline`, `v3_start_campaign`,
`v3_confirm`, lines 1720-2610) -/

/-- `V3PipelineState` enum. -/
inductive V3State where
  | idle
  | analyzing
  | awaiting_confirm
  | executing
  | complete
  | error
deriving DecidableEq, Repr

def V3State.toStr : V3State → String
  | .idle => "idle"
  | .analyzing => "analyzing"
  | .awaiting_confirm => "awaiting_confirm"
  | .executing => "executing"
  | .complete => "complete"
  | .error => "error"

structure V3StepEvent where
  step : Nat
  name : String
  status : String
  detail : String
deriving DecidableEq, Repr

/-- One entry of the V3 job's event queue (timestamps and draft payloads
omitted). -/
inductive V3QEvent where
  | v3_step (e : V3StepEvent)
  | state_change (s : V3State) (message : String)
  | draft_ready
  | v3_complete
  | error (m : String)
deriving DecidableEq, Repr

/-- The `upload_flags` dict: each key read with `.get`, `drive` with
default `True`. -/
structure UploadFlags where
  youtube : Option Bool := none
  instagram : Option Bool := none
  naver : Option Bool := none
  drive : Option Bool := none
deriving DecidableEq, Repr

/-- The slice of `pipeline.results` written by steps 5-8. -/
structure V3Results where
  blog_html : String := ""
  yt_shorts : Option String := none
  ig_reels : Option String := none
  upload_results : List (String × String) := []
  drive_url : Option String := none
deriving DecidableEq, Repr

/-- Outcomes of the external calls made by `V3WebPipeline`.  Calls whose
exceptions are NOT caught by an inner try (step 1 scraping, step 2 blog
generation, step 3 keyword generation, step 4 translation/setup) abort
the run when they return `.exn`; the remaining calls are caught per-step
and degrade. -/
structure V3Handlers where
  step1_product : Res String
  step2_blog : Res Nat
  step2_shorts : Res Nat
  step3_keywords : Res Unit
  step3_images : Res (List String)
  step3_videos : Res Nat
  step4 : Res (Nat × Nat × Nat)
  step5_html : Res String
  step6_yt : Res (Option String)
  step7_ig : Res (Option String)
  step8_upload_youtube : Res (Option String)
  step8_upload_instagram : Res (Option String)
  step8_upload_naver : Res (Option String)
  step8_drive : Res (Option String)
deriving DecidableEq, Repr

/-- `_step_1_analyze` and `_step_2_content` (the part of `run()` before
the review-mode checkpoint).  Returns the product title, blog section
count and shorts scene count, or the uncaught exception. -/
def v3Steps12 (h : V3Handlers) (review_mode : Bool) :
    List V3QEvent × Res (String × Nat × Nat) :=
  let run1 : V3QEvent := .v3_step ⟨1, "analyze", "running", "쿠팡 상품 정보 스크래핑 중..."⟩
  match h.step1_product with
  | .exn m => ([run1], .exn m)
  | .ok title =>
    let ev1 := [run1, V3QEvent.v3_step ⟨1, "analyze", "complete", "상품: " ++ title⟩]
    let run2 : V3QEvent := .v3_step ⟨2, "content", "running",
      "블로그 글 + 숏폼 대본 AI 생성 중 (Gemini 무료)..."⟩
    match h.step2_blog with
    | .exn m => (ev1 ++ [run2], .exn m)
    | .ok nb =>
      let ns := match h.step2_shorts with
        | .exn _ => 0
        | .ok n => n
      let ev2c : V3QEvent := .v3_step ⟨2, "content", "complete",
        "블로그 " ++ toString nb ++ "섹션 + 숏폼 " ++ toString ns ++ "장면"⟩
      let draftEvs := if review_mode then [V3QEvent.draft_ready] else []
      (ev1 ++ [run2, ev2c] ++ draftEvs, .ok (title, nb, ns))

/-- `_run_steps_3_to_8`: steps 3-8 with their per-step error isolation. -/
def v3Steps3to8 (h : V3Handlers) (flags : UploadFlags) :
    List V3QEvent × Res V3Results :=
  let run3 : V3QEvent := .v3_step ⟨3, "collect", "running", "모든 플랫폼에서 이미지/영상 수집 중..."⟩
  match h.step3_keywords with
  | .exn m => ([run3], .exn m)
  | .ok _ =>
    let images := match h.step3_images with
      | .exn _ => []
      | .ok imgs => imgs
    let videos := match h.step3_videos with
      | .exn _ => 0
      | .ok n => n
    let ev3 := [run3, V3QEvent.v3_step ⟨3, "collect", "complete",
      "이미지 " ++ toString images.length ++ "장 + 영상 " ++ toString videos ++ "개"⟩]
    let run4 : V3QEvent := .v3_step ⟨4, "ai_media", "running",
      "AI 이미지/영상 생성 중 (마이크로 프롬프트)..."⟩
    match h.step4 with
    | .exn m => (ev3 ++ [run4], .exn m)
    | .ok (imagenN, nanoN, veoN) =>
      let ev4 := [run4, V3QEvent.v3_step ⟨4, "ai_media", "complete",
        "Imagen " ++ toString imagenN ++ "장 + NanoBanana " ++ toString nanoN ++
          "장 + VEO " ++ toString veoN ++ "개"⟩]
      -- Step 5: Naver blog HTML (caught)
      let run5 : V3QEvent := .v3_step ⟨5, "naver", "running",
        "네이버 블로그 HTML 최적화 중 (이미지 5-7장 860px)..."⟩
      let s5 : List V3QEvent × String :=
        match h.step5_html with
        | .exn m => ([run5, .v3_step ⟨5, "naver", "error", m⟩], "")
        | .ok html => ([run5, .v3_step ⟨5, "naver", "complete", "블로그 HTML 최적화 완료"⟩], html)
      -- Step 6: YouTube shorts (caught)
      let run6 : V3QEvent := .v3_step ⟨6, "youtube", "running",
        "유튜브 쇼츠 최적화 중 (1080x1920 60fps 12Mbps)..."⟩
      let s6 : List V3QEvent × Option String :=
        match h.step6_yt with
        | .exn m => ([run6, .v3_step ⟨6, "youtube", "error", m⟩], none)
        | .ok (some p) => ([run6, .v3_step ⟨6, "youtube", "complete", "쇼츠 완료"⟩], some p)
        | .ok none =>
          ([run6, .v3_step ⟨6, "youtube", "complete", "영상 소스 부족 — 쇼츠 생략"⟩], none)
      -- Step 7: Instagram reels (caught)
      let run7 : V3QEvent := .v3_step ⟨7, "instagram", "running",
        "인스타 릴스 최적화 중 (1080x1920 30fps 10Mbps)..."⟩
      let s7 : List V3QEvent × Option String :=
        match h.step7_ig with
        | .exn m => ([run7, .v3_step ⟨7, "instagram", "error", m⟩], none)
        | .ok (some p) => ([run7, .v3_step ⟨7, "instagram", "complete", "릴스 완료"⟩], some p)
        | .ok none =>
          ([run7, .v3_step ⟨7, "instagram", "complete", "영상 소스 부족 — 릴스 생략"⟩], none)
      -- Step 8: uploads (gated on the upload flags) and Drive archiving
      let run8 : V3QEvent := .v3_step ⟨8, "deploy", "running", "플랫폼별 업로드 + Drive 아카이빙 중..."⟩
      let uy := flags.youtube.getD false
      let ui := flags.instagram.getD false
      let un := flags.naver.getD false
      let any_upload := uy || ui || un
      let upYT : List (String × String) :=
        if any_upload && uy && s6.2.isSome then
          match h.step8_upload_youtube with
          | .exn m => [("youtube_error", m)]
          | .ok (some r) => [("youtube", r)]
          | .ok none => []
        else []
      let upIG : List (String × String) :=
        if any_upload && ui && s7.2.isSome then
          match h.step8_upload_instagram with
          | .exn m => [("instagram_error", m)]
          | .ok (some r) => [("instagram", r)]
          | .ok none => []
        else []
      let upNV : List (String × String) :=
        if any_upload && un && s5.2 ≠ "" then
          match h.step8_upload_naver with
          | .exn m => [("naver_error", m)]
          | .ok (some r) => [("naver", r)]
          | .ok none => []
        else []
      let drive_url := if flags.drive.getD true then
          match h.step8_drive with
          | .exn _ => none
          | .ok u => u
        else none
      let ev8 := [run8, V3QEvent.v3_step ⟨8, "deploy", "complete", "완료"⟩]
      (ev3 ++ ev4 ++ s5.1 ++ s6.1 ++ s7.1 ++ ev8,
       .ok { blog_html := s5.2, yt_shorts := s6.2, ig_reels := s7.2,
             upload_results := upYT ++ upIG ++ upNV, drive_url := drive_url })

/-- `V3WebPipeline.run` (lines 1925-1940): steps 1-2, then either pause at
the review checkpoint (`.ok none` models the `"awaiting_confirm"` return)
or continue through steps 3-8 (`.ok (some r)` models `"complete"`).  An
uncaught exception puts one `error` event on the queue and re-raises. -/
def V3WebPipeline.run (h : V3Handlers) (review_mode : Bool) (flags : UploadFlags) :
    List V3QEvent × Res (Option V3Results) :=
  match v3Steps12 h review_mode with
  | (evs, .exn m) => (evs ++ [.error m], .exn m)
  | (evs, .ok _) =>
    if review_mode then (evs, .ok none)
    else
      match v3Steps3to8 h flags with
      | (evs2, .exn m) => (evs ++ evs2 ++ [.error m], .exn m)
      | (evs2, .ok r) => (evs ++ evs2, .ok (some r))

/-- The V3 Job Record (`v3_jobs[job_id]`; the `pipeline` object's
`review_mode` and `upload_flags` fields are flattened into the record). -/
structure V3JobRec where
  state : V3State
  review_mode : Bool
  upload_flags : UploadFlags
  results : Option V3Results := none
  error : Option String := none
  events : List V3QEvent := []
  created_at : Nat := 0
deriving DecidableEq, Repr

/-- The V3 review checkpoint sits after step 2: an event for a stage
past the checkpoint is a `v3_step` event with `step ≥ 3`. -/
def v3PastCheckpoint : V3QEvent → Bool
  | .v3_step e => decide (3 ≤ e.step)
  | _ => false

/-- The `worker` closure of `v3_start_campaign` (lines 2517-2553): runs
the pipeline, then (a) pauses in `AWAITING_CONFIRM` with the draft
state-change event, (b) completes with the `v3_complete` event, or (c) on
an exception moves to `ERROR` and puts a second `error` event. -/
def v3_start_campaign_worker (h : V3Handlers) (review_mode : Bool)
    (flags : UploadFlags) (now : Nat) : V3JobRec :=
  let init : V3JobRec :=
    { state := .analyzing, review_mode := review_mode, upload_flags := flags,
      created_at := now }
  match V3WebPipeline.run h review_mode flags with
  | (evs, .exn m) =>
    { init with state := .error, error := some m, events := evs ++ [.error m] }
  | (evs, .ok none) =>
    { init with
      state := .awaiting_confirm,
      events := evs ++
        [.state_change .awaiting_confirm "✅ 초안 생성 완료! 확인 후 계속 진행하세요."] }
  | (evs, .ok (some r)) =>
    { init with state := .complete, results := some r, events := evs ++ [.v3_complete] }

/-- Body of the V3 confirm request: an optional replacement for the
pipeline's `upload_flags`. -/
structure V3ConfirmReq where
  upload_flags : Option UploadFlags := none
deriving DecidableEq, Repr

/-- `v3_confirm` (lines 2554-2580, synchronous part): guard on
`AWAITING_CONFIRM`, optionally replace the upload flags, move to
`EXECUTING` and queue the state-change event. -/
def v3_confirm (jobOpt : Option V3JobRec) (req : V3ConfirmReq) : ApiResp × Option V3JobRec :=
  match jobOpt with
  | none => (.not_found, none)
  | some job =>
    if job.state ≠ .awaiting_confirm then
      (.state_conflict ("현재 상태: " ++ job.state.toStr), some job)
    else
      (.accepted "executing",
       some { job with
          upload_flags := req.upload_flags.getD job.upload_flags,
          state := .executing,
          events := job.events ++ [.state_change .executing "🚀 3~8단계 실행 시작!"] })

/-- The `resume` closure of `v3_confirm`: `resume_after_confirm()` runs
steps 3-8, then the job completes; an exception moves it to `ERROR`. -/
def v3_resume (job : V3JobRec) (h : V3Handlers) : V3JobRec :=
  match v3Steps3to8 h job.upload_flags with
  | (evs, .exn m) =>
    { job with state := .error, error := some m, events := job.events ++ evs ++ [.error m] }
  | (evs, .ok r) =>
    { job with
      state := .complete,
      results := some r,
      events := job.events ++ evs ++ [.v3_complete] }

/-! ## Stream adapters (`stream_campaign` lines 462-500, `v2_stream`
lines 1678-1710, `v3_stream` lines 2610-2670)

Each SSE generator is a polling loop; one `Poll` records what the
generator observes in one iteration of its outer `while`: the job's
current status/state and the events drained from the queue in that
iteration (empty list = the queue was empty; the generator then sleeps
0.3 s before the next poll).  The V1 and V2 loops yield only drained
events; the V3 loop additionally counts consecutive idle polls and
yields a synthetic heartbeat when the count reaches `max_idle = 300`.
After the loop exits, each generator flushes the remaining queued events
and emits the terminal marker derived from the job's final fields. -/

/-- Serialized SSE outputs of the V1 stream. -/
inductive V1Out where
  | event (e : V1QEvent)
  | done (results : V1Results)
  | errorOut (m : Option String)
deriving DecidableEq, Repr

structure V1Poll where
  status : String
  events : List V1QEvent
deriving DecidableEq, Repr

/-- The `while job["status"] in ("pending", "running")` loop of
`stream_campaign`: each iteration drains and yields the queued events;
there is no heartbeat branch. -/
def stream_campaign_loop : List V1Poll → List V1Out
  | [] => []
  | p :: ps =>
    if p.status = "pending" ∨ p.status = "running" then
      p.events.map V1Out.event ++ stream_campaign_loop ps
    else []

/-- The terminal-marker branch of `stream_campaign` (lines 493-497):
`done` only when status is `complete` AND `job["results"]` is truthy,
`error` when status is `error`. -/
def v1Markers (job : V1Job) : List V1Out :=
  if job.status = "complete" then
    match job.results with
    | some r => [.done r]
    | none => []
  else if job.status = "error" then [.errorOut job.error]
  else []

/-- One complete run of the `stream_campaign` generator: the polling
loop, the final unconditional flush of `remaining`, then the terminal
marker. -/
def stream_campaign_gen (polls : List V1Poll) (job : V1Job)
    (remaining : List V1QEvent) : List V1Out :=
  stream_campaign_loop polls ++ remaining.map V1Out.event ++ v1Markers job

/-- Serialized SSE outputs of the V2 stream. -/
inductive V2Out where
  | event (e : V2QEvent)
  | v2_done (results : V2Results)
  | errorOut (m : String)
deriving DecidableEq, Repr

structure V2Poll where
  state : V2State
  events : List V2QEvent
deriving DecidableEq, Repr

/-- The `while job["state"] not in (COMPLETE, ERROR)` loop of
`v2_stream`: drained events only, no heartbeat branch. -/
def v2_stream_loop : List V2Poll → List V2Out
  | [] => []
  | p :: ps =>
    if p.state = .complete ∨ p.state = .error then []
    else p.events.map V2Out.event ++ v2_stream_loop ps

/-- The terminal-marker branch of `v2_stream` (lines 1703-1707). -/
def v2Markers (job : V2Job) : List V2Out :=
  if job.state = .complete then [.v2_done job.results]
  else if job.state = .error then [.errorOut (job.error.getD "Unknown error")]
  else []

/-- One complete run of the `v2_stream` generator. -/
def v2_stream_gen (polls : List V2Poll) (job : V2Job)
    (remaining : List V2QEvent) : List V2Out :=
  v2_stream_loop polls ++ remaining.map V2Out.event ++ v2Markers job

/-- Serialized SSE outputs of the V3 stream. -/
inductive V3Out where
  | event (e : V3QEvent)
  | heartbeat
  | v3_done (results : Option V3Results)
  | errorOut (m : String)
deriving DecidableEq, Repr

structure V3Poll where
  state : V3State
  events : List V3QEvent
deriving DecidableEq, Repr

/-- `max_idle = 300` (0.3 s polls, so a heartbeat roughly every 90 s of
idling). -/
def v3_max_idle : Nat := 300

/-- The `while True` loop of `v3_stream` with its `timeout_count`
accumulator: break on terminal states; on `AWAITING_CONFIRM` flush the
drained events and break; otherwise yield drained events (resetting the
idle count) or, when the queue was empty, bump the idle count and emit a
heartbeat each time it reaches `max_idle`. -/
def v3_stream_loop : List V3Poll → Nat → List V3Out
  | [], _ => []
  | p :: ps, t =>
    if p.state = .complete ∨ p.state = .error then []
    else if p.state = .awaiting_confirm then p.events.map V3Out.event
    else
      if p.events.isEmpty then
        if v3_max_idle ≤ t + 1 then V3Out.heartbeat :: v3_stream_loop ps 0
        else v3_stream_loop ps (t + 1)
      else p.events.map V3Out.event ++ v3_stream_loop ps 0

/-- The terminal-marker branch of `v3_stream` (lines 2663-2666). -/
def v3Markers (job : V3JobRec) : List V3Out :=
  if job.state = .complete then [.v3_done job.results]
  else if job.state = .error then [.errorOut (job.error.getD "")]
  else []

/-- One complete run of the `v3_stream` generator. -/
def v3_stream_gen (polls : List V3Poll) (job : V3JobRec)
    (remaining : List V3QEvent) : List V3Out :=
  v3_stream_loop polls 0 ++ remaining.map V3Out.event ++ v3Markers job

/-! ## Concrete fixtures used to instantiate the theorems below -/

/-- V1 handler fixture: every collaborator succeeds. -/
def v1HandlersOk : V1Handlers :=
  { prepare_product := .ok "텀블러",
    generate_contents := .ok [("youtube", 5, 10)],
    collect_media := .ok ["img1.jpg"],
    generate_thumbnails := .ok [("youtube", "t.png")],
    render_videos := .ok [("youtube", "v.mp4")],
    upload_all := .ok (),
    drive_authenticate := .ok true,
    archive_campaign := .ok ⟨true, "drive/url", 3, []⟩,
    drive_total_files := 3 }

/-- V1 fixture: step 1 (fatal tier) raises. -/
def v1HandlersFatal1 : V1Handlers :=
  { v1HandlersOk with prepare_product := .exn "scrape failed" }

/-- V1 fixture: step 3 (soft-fail tier) raises. -/
def v1HandlersSoft3 : V1Handlers :=
  { v1HandlersOk with collect_media := .exn "no api key" }

/-- V2 analyze-handler fixture: everything succeeds. -/
def v2AnalyzeOk : V2AnalyzeHandlers :=
  { prepare_product := .ok "텀블러", blog_content := .ok 4, shorts_script := .ok 6 }

/-- V2 execute-handler fixture: everything succeeds. -/
def v2ExecOk : V2ExecHandlers :=
  { media_crawl := .ok (["a.jpg"], 0, 2),
    blog_compose := .ok "<html>",
    video_launder := .ok 2,
    shorts_render := .ok (some "shorts.mp4"),
    upload_youtube_call := .ok (some "yt_id"),
    upload_instagram_call := .ok (some "ig_id"),
    upload_naver_call := .ok (some "nv_id"),
    drive_auth := .ok true,
    drive_archive_call := .ok (some "drive/url") }

/-- A V2 job paused at the confirmation checkpoint. -/
def v2JobAwaitConfirm : V2Job :=
  { state := .awaiting_confirm, coupang_link := some "https://coupang.com/vp/products/1",
    affiliate_link := some "https://link.coupang.com/a/x", product_info := some "텀블러",
    draft_blog := some 4, shorts_script := some 6 }

/-- A V2 job already executing (used for the double-confirm scenario). -/
def v2JobExecuting : V2Job :=
  { v2JobAwaitConfirm with state := .executing }

/-- V3 handler fixture: every collaborator succeeds. -/
def v3HandlersOk : V3Handlers :=
  { step1_product := .ok "텀블러",
    step2_blog := .ok 4,
    step2_shorts := .ok 6,
    step3_keywords := .ok (),
    step3_images := .ok ["a.jpg"],
    step3_videos := .ok 2,
    step4 := .ok (3, 2, 1),
    step5_html := .ok "<html>",
    step6_yt := .ok (some "yt.mp4"),
    step7_ig := .ok (some "ig.mp4"),
    step8_upload_youtube := .ok (some "yt_id"),
    step8_upload_instagram := .ok (some "ig_id"),
    step8_upload_naver := .ok (some "nv_id"),
    step8_drive := .ok (some "drive/url") }

/-- A V3 job paused at the confirmation checkpoint. -/
def v3JobAwaitConfirm : V3JobRec :=
  { state := .awaiting_confirm, review_mode := true, upload_flags := {} }

/-- A V3 job already executing. -/
def v3JobExecuting : V3JobRec :=
  { v3JobAwaitConfirm with state := .executing }

/-- A valid V2 link-submission request. -/
def v2LinkReqOk : V2LinkReq :=
  { coupang_link := "https://coupang.com/vp/products/1",
    affiliate_link := "https://link.coupang.com/a/x" }

/-- A terminal V1 job that failed with `"boom"`. -/
def v1ErrJob : V1Job :=
  { status := "error", results := none, error := some "boom", queue := [] }

/-- A completed V3 job. -/
def v3CompleteJob : V3JobRec :=
  { state := .complete, review_mode := false, upload_flags := {}, results := some {} }

/-! ## Helper lemmas -/

/-- Lifting a step event into the worker's queue. -/
theorem step_mem_map_append {e : V1Event} {evs : List V1Event} {tail : List V1QEvent}
    (he : e ∈ evs) : V1QEvent.step e ∈ evs.map V1QEvent.step ++ tail :=
  List.mem_append_left _ (List.mem_map_of_mem _ he)

/-- Step 3 always emits an event numbered 3. -/
theorem v1Step3_has_event (r : Res (List String)) :
    ∃ e ∈ (v1Step3 r).1, e.step = 3 := by
  cases r <;> exact ⟨_, List.mem_cons_self _ _, rfl⟩

/-- Step 4 always emits an event numbered 4. -/
theorem v1Step4_has_event (r : Res (List (String × String))) :
    ∃ e ∈ (v1Step4 r).1, e.step = 4 := by
  cases r <;> exact ⟨_, List.mem_cons_self _ _, rfl⟩

/-- Step 5 always emits an event numbered 5. -/
theorem v1Step5_has_event (r : Res (List (String × String))) :
    ∃ e ∈ (v1Step5 r).1, e.step = 5 := by
  cases r <;> exact ⟨_, List.mem_cons_self _ _, rfl⟩

/-- Step 6 always emits an event numbered 6. -/
theorem v1Step6_has_event (b : Bool) (r : Res Unit) :
    ∃ e ∈ (v1Step6 b r).1, e.step = 6 := by
  cases b <;> cases r <;> exact ⟨_, List.mem_cons_self _ _, rfl⟩

/-- Step 7 always emits an event numbered 7. -/
theorem v1Step7_has_event (b : Bool) (a : Res Bool) (c : Res ArchiveResult) (n : Nat) :
    ∃ e ∈ (v1Step7 b a c n).1, e.step = 7 := by
  cases b with
  | false => exact ⟨_, List.mem_cons_self _ _, rfl⟩
  | true =>
    cases a with
    | exn m => exact ⟨_, List.mem_cons_self _ _, rfl⟩
    | ok auth =>
      cases auth with
      | false => exact ⟨_, List.mem_cons_self _ _, rfl⟩
      | true =>
        cases c with
        | exn m => exact ⟨_, List.mem_cons_self _ _, rfl⟩
        | ok res =>
          obtain ⟨rok, rurl, rn, rerrs⟩ := res
          cases rok <;> exact ⟨_, List.mem_cons_self _ _, rfl⟩

/-! ## Claims -/

/-- C1 (code bug): the claim — backed by the sweeper's own docstring —
says a job is removed iff it is terminal and older than the retention
window, and that non-terminal jobs are never removed.  The code's
`active_states` tuple omits the non-terminal V2 states `awaiting_link`
and `idle`, so at `now = 7201` a two-hour-old job still awaiting its
link IS removed, while a same-age `analyzing` job is kept and a same-age
`complete` job is removed as specified. -/
theorem cleanup_removes_nonterminal_awaiting_link :
    cleanup_old_jobs
      [("j_awaiting", { created_at := some 0, status := none, state := some "awaiting_link" }),
       ("j_analyzing", { created_at := some 0, status := none, state := some "analyzing" }),
       ("j_complete", { created_at := some 0, status := some "complete", state := none })]
      7201
    = [("j_analyzing", { created_at := some 0, status := none, state := some "analyzing" })] := by
  decide

/-- C2: when a fatal-tier V1 stage (step 1 `product_info` or step 2
`ai_content`) raises, the job's final status is `error`, the Job
Record's `error` field carries that stage's failure detail, and no event
for any later stage is ever queued. -/
theorem v1_fatal_stage_halts_pipeline (h : V1Handlers) (platforms : List String)
    (auto_upload drive_archive : Bool) (m : String) :
    (h.prepare_product = .exn m →
      (start_campaign_worker h platforms auto_upload drive_archive).status = "error" ∧
      (start_campaign_worker h platforms auto_upload drive_archive).error = some m ∧
      ∀ e, V1QEvent.step e ∈ (start_campaign_worker h platforms auto_upload drive_archive).queue →
        e.step = 1) ∧
    (∀ title, h.prepare_product = .ok title → h.generate_contents = .exn m →
      (start_campaign_worker h platforms auto_upload drive_archive).status = "error" ∧
      (start_campaign_worker h platforms auto_upload drive_archive).error = some m ∧
      ∀ e, V1QEvent.step e ∈ (start_campaign_worker h platforms auto_upload drive_archive).queue →
        e.step ≤ 2) := by
  constructor
  · intro hp
    refine ⟨?_, ?_, ?_⟩
    · simp [start_campaign_worker, WebPipeline.run, hp]
    · simp [start_campaign_worker, WebPipeline.run, hp]
    · intro e he
      simp only [start_campaign_worker, WebPipeline.run, hp, List.map_cons, List.map_nil,
        List.cons_append, List.nil_append, List.mem_cons, List.not_mem_nil, or_false,
        V1QEvent.step.injEq, reduceCtorEq] at he
      rcases he with rfl | rfl <;> rfl
  · intro title hp hg
    refine ⟨?_, ?_, ?_⟩
    · simp [start_campaign_worker, WebPipeline.run, hp, hg]
    · simp [start_campaign_worker, WebPipeline.run, hp, hg]
    · intro e he
      simp only [start_campaign_worker, WebPipeline.run, hp, hg, List.map_cons, List.map_nil,
        List.map_append, List.cons_append, List.nil_append, List.append_assoc, List.mem_cons,
        List.mem_append, List.not_mem_nil, or_false, V1QEvent.step.injEq, reduceCtorEq] at he
      rcases he with rfl | rfl | rfl | rfl <;> simp

/-- Witness for C2 at a concrete input: the fixture whose step 1 raises
`"scrape failed"`. -/
theorem v1_fatal_stage_halts_pipeline_witness :
    (start_campaign_worker v1HandlersFatal1 ["youtube"] false true).status = "error" ∧
    (start_campaign_worker v1HandlersFatal1 ["youtube"] false true).error = some "scrape failed" := by
  have h := v1_fatal_stage_halts_pipeline v1HandlersFatal1 ["youtube"] false true "scrape failed"
  exact ⟨(h.1 rfl).1, (h.1 rfl).2.1⟩

/-- Membership lemma for the V1 worker queue, whose event part is a
six-way append of the per-step event lists. -/
theorem step_mem_sixfold {x : V1Event} {l1 l2 l3 l4 l5 l6 : List V1Event}
    {tail : List V1QEvent}
    (hx : x ∈ l1 ∨ x ∈ l2 ∨ x ∈ l3 ∨ x ∈ l4 ∨ x ∈ l5 ∨ x ∈ l6) :
    V1QEvent.step x ∈ (l1 ++ l2 ++ l3 ++ l4 ++ l5 ++ l6).map V1QEvent.step ++ tail := by
  apply List.mem_append_left
  apply List.mem_map_of_mem
  simp only [List.mem_append]
  tauto

/-- C3: when a soft-fail-tier V1 stage (step 3 `media`, step 4
`thumbnail` or step 5 `video_render`) raises, the runner queues an
`error` event for that stage carrying the failure detail, records an
empty result for it, still executes the remaining stages (an event for
each later stage is queued), and the job ends with status `complete`. -/
theorem v1_soft_fail_stage_continues (h : V1Handlers) (platforms : List String)
    (auto_upload drive_archive : Bool) (title : String)
    (contents : List (String × Nat × Nat))
    (h1 : h.prepare_product = .ok title) (h2 : h.generate_contents = .ok contents) :
    ∀ job, job = start_campaign_worker h platforms auto_upload drive_archive →
      job.status = "complete" ∧
      (∀ m, h.collect_media = .exn m →
        V1QEvent.step ⟨3, "media", "error", m⟩ ∈ job.queue ∧
        job.results.map V1Results.images = some [] ∧
        (∃ e, V1QEvent.step e ∈ job.queue ∧ e.step = 4) ∧
        (∃ e, V1QEvent.step e ∈ job.queue ∧ e.step = 5)) ∧
      (∀ m, h.generate_thumbnails = .exn m →
        V1QEvent.step ⟨4, "thumbnail", "error", m⟩ ∈ job.queue ∧
        job.results.map V1Results.thumbnails = some [] ∧
        (∃ e, V1QEvent.step e ∈ job.queue ∧ e.step = 5)) ∧
      (∀ m, h.render_videos = .exn m →
        V1QEvent.step ⟨5, "video_render", "error", m⟩ ∈ job.queue ∧
        job.results.map V1Results.videos = some []) ∧
      (∃ e, V1QEvent.step e ∈ job.queue ∧ e.step = 6) ∧
      (∃ e, V1QEvent.step e ∈ job.queue ∧ e.step = 7) := by
  intro job hjob
  subst hjob
  refine ⟨?_, ?_, ?_, ?_, ?_, ?_⟩
  · simp [start_campaign_worker, WebPipeline.run, h1, h2]
  · intro m hm
    have hmem3 : (⟨3, "media", "error", m⟩ : V1Event) ∈ (v1Step3 h.collect_media).1 := by
      rw [hm]; simp [v1Step3]
    refine ⟨?_, ?_, ?_, ?_⟩
    · simp only [start_campaign_worker, WebPipeline.run, h1, h2]
      exact step_mem_sixfold (Or.inr (Or.inl hmem3))
    · simp [start_campaign_worker, WebPipeline.run, h1, h2, hm, v1Step3]
    · obtain ⟨e, hmem, hstep⟩ := v1Step4_has_event h.generate_thumbnails
      refine ⟨e, ?_, hstep⟩
      simp only [start_campaign_worker, WebPipeline.run, h1, h2]
      exact step_mem_sixfold (Or.inr (Or.inr (Or.inl hmem)))
    · obtain ⟨e, hmem, hstep⟩ := v1Step5_has_event h.render_videos
      refine ⟨e, ?_, hstep⟩
      simp only [start_campaign_worker, WebPipeline.run, h1, h2]
      exact step_mem_sixfold (Or.inr (Or.inr (Or.inr (Or.inl hmem))))
  · intro m hm
    have hmem4 : (⟨4, "thumbnail", "error", m⟩ : V1Event) ∈ (v1Step4 h.generate_thumbnails).1 := by
      rw [hm]; simp [v1Step4]
    refine ⟨?_, ?_, ?_⟩
    · simp only [start_campaign_worker, WebPipeline.run, h1, h2]
      exact step_mem_sixfold (Or.inr (Or.inr (Or.inl hmem4)))
    · simp [start_campaign_worker, WebPipeline.run, h1, h2, hm, v1Step4]
    · obtain ⟨e, hmem, hstep⟩ := v1Step5_has_event h.render_videos
      refine ⟨e, ?_, hstep⟩
      simp only [start_campaign_worker, WebPipeline.run, h1, h2]
      exact step_mem_sixfold (Or.inr (Or.inr (Or.inr (Or.inl hmem))))
  · intro m hm
    have hmem5 : (⟨5, "video_render", "error", m⟩ : V1Event) ∈ (v1Step5 h.render_videos).1 := by
      rw [hm]; simp [v1Step5]
    refine ⟨?_, ?_⟩
    · simp only [start_campaign_worker, WebPipeline.run, h1, h2]
      exact step_mem_sixfold (Or.inr (Or.inr (Or.inr (Or.inl hmem5))))
    · simp [start_campaign_worker, WebPipeline.run, h1, h2, hm, v1Step5]
  · obtain ⟨e, hmem, hstep⟩ := v1Step6_has_event auto_upload h.upload_all
    refine ⟨e, ?_, hstep⟩
    simp only [start_campaign_worker, WebPipeline.run, h1, h2]
    exact step_mem_sixfold (Or.inr (Or.inr (Or.inr (Or.inr (Or.inl hmem)))))
  · obtain ⟨e, hmem, hstep⟩ :=
      v1Step7_has_event drive_archive h.drive_authenticate h.archive_campaign h.drive_total_files
    refine ⟨e, ?_, hstep⟩
    simp only [start_campaign_worker, WebPipeline.run, h1, h2]
    exact step_mem_sixfold (Or.inr (Or.inr (Or.inr (Or.inr (Or.inr hmem)))))

/-- Witness for C3 at a concrete input: the fixture whose step 3 raises
`"no api key"` while all other stages succeed. -/
theorem v1_soft_fail_stage_continues_witness :
    (start_campaign_worker v1HandlersSoft3 ["youtube"] true true).status = "complete" ∧
    V1QEvent.step ⟨3, "media", "error", "no api key"⟩ ∈
      (start_campaign_worker v1HandlersSoft3 ["youtube"] true true).queue ∧
    (start_campaign_worker v1HandlersSoft3 ["youtube"] true true).results.map
        V1Results.images = some [] := by
  have h := v1_soft_fail_stage_continues v1HandlersSoft3 ["youtube"] true true
    "텀블러" [("youtube", 5, 10)] rfl rfl _ rfl
  exact ⟨h.1, (h.2.1 "no api key" rfl).1, (h.2.1 "no api key" rfl).2.1⟩

/-- C4: a confirm call (V2 or V3) made while the job's state is not
`awaiting_confirm` — including a second confirm while already
`executing` — is rejected with a state-conflict error and leaves the
job record, its state and its stored stage results unchanged. -/
theorem confirm_state_conflict_no_mutation (j2 : V2Job) (r2 : V2ConfirmReq)
    (j3 : V3JobRec) (r3 : V3ConfirmReq) :
    (j2.state ≠ .awaiting_confirm →
      (∃ m, (v2_confirm_execute (some j2) r2).1 = .state_conflict m) ∧
      (v2_confirm_execute (some j2) r2).2 = some j2) ∧
    (j3.state ≠ .awaiting_confirm →
      (∃ m, (v3_confirm (some j3) r3).1 = .state_conflict m) ∧
      (v3_confirm (some j3) r3).2 = some j3) := by
  constructor
  · intro hs
    simp [v2_confirm_execute, hs]
  · intro hs
    simp [v3_confirm, hs]

/-- Witness for C4: a double confirm on executing V2 and V3 jobs leaves
both unchanged. -/
theorem confirm_state_conflict_no_mutation_witness :
    (v2_confirm_execute (some v2JobExecuting) {}).2 = some v2JobExecuting ∧
    (v3_confirm (some v3JobExecuting) {}).2 = some v3JobExecuting := by
  have h := confirm_state_conflict_no_mutation v2JobExecuting {} v3JobExecuting {}
  exact ⟨(h.1 (by decide)).2, (h.2 (by decide)).2⟩

/-- C9: the V2 link submission succeeds and moves the job from
`awaiting_link` to `analyzing` only when the current state is
`awaiting_link` (and the two links validate); a submission in any other
state is rejected with a state-conflict error response — not silently
ignored — leaving the job unchanged. -/
theorem v2_submit_link_guarded (job : V2Job) (req : V2LinkReq) :
    (job.state ≠ .awaiting_link →
      (∃ m, (v2_submit_link (some job) req).1 = .state_conflict m) ∧
      (v2_submit_link (some job) req).2 = some job) ∧
    (job.state = .awaiting_link →
        pyStrip req.coupang_link ≠ "" → pyStrip req.affiliate_link ≠ "" →
      (v2_submit_link (some job) req).1 = .accepted "analyzing" ∧
      ((v2_submit_link (some job) req).2.map V2Job.state) = some .analyzing) ∧
    (∀ s, (v2_submit_link (some job) req).1 = .accepted s → job.state = .awaiting_link) := by
  refine ⟨?_, ?_, ?_⟩
  · intro hs
    simp [v2_submit_link, hs]
  · intro hs hc ha
    constructor <;> simp [v2_submit_link, hs, hc, ha]
  · intro s hacc
    by_contra hne
    simp [v2_submit_link, hne] at hacc

/-- Witness for C9: a fresh V2 job accepts a valid link submission and
moves to `analyzing`; an executing job rejects it with a state
conflict. -/
theorem v2_submit_link_guarded_witness :
    (v2_submit_link (some (v2_start_campaign 0)) v2LinkReqOk).1 = .accepted "analyzing" ∧
    ((v2_submit_link (some (v2_start_campaign 0)) v2LinkReqOk).2.map V2Job.state) =
      some .analyzing ∧
    (∃ m, (v2_submit_link (some v2JobExecuting) v2LinkReqOk).1 = .state_conflict m) := by
  have h1 := v2_submit_link_guarded (v2_start_campaign 0) v2LinkReqOk
  have h2 := v2_submit_link_guarded v2JobExecuting v2LinkReqOk
  have hok := h1.2.1 rfl (by decide) (by decide)
  exact ⟨hok.1, hok.2, (h2.1 (by decide)).1⟩

/-- C10: an accepted V2 confirm stores each upload toggle as exactly the
boolean supplied in the request body, defaulting to `False` when the key
is absent; with an empty body all three toggles are stored `False` —
regardless of the job's previous fields — and the executor's step 9
consequently attempts no platform upload. -/
theorem v2_confirm_sets_upload_toggles (job : V2Job) (req : V2ConfirmReq)
    (hs : job.state = .awaiting_confirm) :
    ∃ job', (v2_confirm_execute (some job) req).2 = some job' ∧
      job'.upload_youtube = some (req.upload_youtube.getD false) ∧
      job'.upload_instagram = some (req.upload_instagram.getD false) ∧
      job'.upload_naver = some (req.upload_naver.getD false) ∧
      (req = {} → ∀ eh : V2ExecHandlers,
        job'.upload_youtube = some false ∧
        job'.upload_instagram = some false ∧
        job'.upload_naver = some false ∧
        (v2_execute job' eh).results.upload_results = []) := by
  refine ⟨{ job with
      upload_youtube := some (req.upload_youtube.getD false),
      upload_instagram := some (req.upload_instagram.getD false),
      upload_naver := some (req.upload_naver.getD false),
      state := .executing,
      events := job.events ++
        [.state_change .executing "🚀 실행 시작! 10단계 파이프라인 진행 중..."] },
    by simp [v2_confirm_execute, hs], rfl, rfl, rfl, ?_⟩
  intro hreq eh
  subst hreq
  refine ⟨rfl, rfl, rfl, ?_⟩
  simp [v2_execute]

/-- Witness for C10: confirming the paused fixture job with an empty
body stores `False` for all toggles and the executor uploads nothing. -/
theorem v2_confirm_sets_upload_toggles_witness :
    ∃ job', (v2_confirm_execute (some v2JobAwaitConfirm) {}).2 = some job' ∧
      job'.upload_youtube = some false ∧
      (v2_execute job' v2ExecOk).results.upload_results = [] := by
  obtain ⟨job', heq, hy, hi, hn, hempty⟩ :=
    v2_confirm_sets_upload_toggles v2JobAwaitConfirm {} rfl
  have h2 := hempty rfl v2ExecOk
  exact ⟨job', heq, h2.1, h2.2.2.2⟩

/-- A link submission either leaves the job unchanged or moves
`awaiting_link` to `analyzing`. -/
theorem v2_submit_state (job : V2Job) (req : V2LinkReq) :
    (v2_apply job (.submitLink req)).state = job.state ∨
    (job.state = .awaiting_link ∧ (v2_apply job (.submitLink req)).state = .analyzing) := by
  by_cases hs : job.state = .awaiting_link
  · simp only [v2_apply, v2_submit_link, hs]
    split_ifs <;> simp [hs]
  · left
    simp [v2_apply, v2_submit_link, hs]

/-- A confirm either leaves the job unchanged or moves
`awaiting_confirm` to `executing`. -/
theorem v2_confirm_state (job : V2Job) (req : V2ConfirmReq) :
    (v2_apply job (.confirm req)).state = job.state ∨
    (job.state = .awaiting_confirm ∧ (v2_apply job (.confirm req)).state = .executing) := by
  by_cases hs : job.state = .awaiting_confirm
  · right
    exact ⟨hs, by simp [v2_apply, v2_confirm_execute, hs]⟩
  · left
    simp [v2_apply, v2_confirm_execute, hs]

/-- The analyze thread ends in `awaiting_confirm` or `error`. -/
theorem v2_analyze_state (job : V2Job) (h : V2AnalyzeHandlers) :
    (v2_analyze job h).state = .awaiting_confirm ∨ (v2_analyze job h).state = .error := by
  cases hp : h.prepare_product with
  | exn m => right; simp [v2_analyze, hp]
  | ok t =>
    cases hb : h.blog_content with
    | exn m => left; simp [v2_analyze, hp, hb]
    | ok n => left; simp [v2_analyze, hp, hb]

/-- The execute thread always ends in `complete`. -/
theorem v2_execute_state (job : V2Job) (h : V2ExecHandlers) :
    (v2_execute job h).state = .complete := rfl

/-- One operation never decreases the state index, and never leaves a
terminal state. -/
theorem v2_apply_step_le (job : V2Job) (op : V2Op) :
    v2StateIdx job.state ≤ v2StateIdx (v2_apply job op).state ∧
    (job.state.isTerminal = true → (v2_apply job op).state = job.state) := by
  cases op with
  | submitLink req =>
    rcases v2_submit_state job req with heq | ⟨hs, hres⟩
    · rw [heq]
      exact ⟨Nat.le_refl _, fun _ => rfl⟩
    · rw [hres, hs]
      refine ⟨by simp [v2StateIdx], fun ht => ?_⟩
      simp [V2State.isTerminal] at ht
  | confirm req =>
    rcases v2_confirm_state job req with heq | ⟨hs, hres⟩
    · rw [heq]
      exact ⟨Nat.le_refl _, fun _ => rfl⟩
    · rw [hres, hs]
      refine ⟨by simp [v2StateIdx], fun ht => ?_⟩
      simp [V2State.isTerminal] at ht
  | analyzeDone h =>
    by_cases hs : job.state = .analyzing
    · have happ : v2_apply job (.analyzeDone h) = v2_analyze job h := by
        simp [v2_apply, hs]
      rw [happ, hs]
      rcases v2_analyze_state job h with h1 | h1 <;> rw [h1] <;>
        exact ⟨by simp [v2StateIdx], fun ht => by simp [hs, V2State.isTerminal] at ht⟩
    · have happ : v2_apply job (.analyzeDone h) = job := by
        simp [v2_apply, hs]
      rw [happ]
      exact ⟨Nat.le_refl _, fun _ => rfl⟩
  | executeDone h =>
    by_cases hs : job.state = .executing
    · have happ : v2_apply job (.executeDone h) = v2_execute job h := by
        simp [v2_apply, hs]
      rw [happ, v2_execute_state, hs]
      exact ⟨by simp [v2StateIdx], fun ht => by simp [hs, V2State.isTerminal] at ht⟩
    · have happ : v2_apply job (.executeDone h) = job := by
        simp [v2_apply, hs]
      rw [happ]
      exact ⟨Nat.le_refl _, fun _ => rfl⟩

/-- C6: over every sequence of operations (link submission, confirm,
runner-thread completions) a V2 job's state only moves forward along
the order `idle < awaiting_link < analyzing < awaiting_confirm <
executing < complete`, with `error` placed past `complete` so that
entering it from any non-terminal state is also a forward move; the
terminal states `complete` and `error` are never left. -/
theorem v2_state_transitions_monotone (job : V2Job) (ops : List V2Op) :
    v2StateIdx job.state ≤ v2StateIdx (ops.foldl v2_apply job).state ∧
    (job.state.isTerminal = true → (ops.foldl v2_apply job).state = job.state) := by
  induction ops generalizing job with
  | nil => exact ⟨Nat.le_refl _, fun _ => rfl⟩
  | cons op ops ih =>
    have h1 := v2_apply_step_le job op
    have h2 := ih (v2_apply job op)
    refine ⟨h1.1.trans h2.1, fun ht => ?_⟩
    have hstay := h1.2 ht
    have hrest := h2.2 (by rw [hstay]; exact ht)
    rw [List.foldl_cons, hrest, hstay]

/-- Witness for C6: a full valid V2 run is monotone, and a job already
`complete` is untouched by a stray confirm. -/
theorem v2_state_transitions_monotone_witness :
    v2StateIdx (v2_start_campaign 0).state ≤
      v2StateIdx (([V2Op.submitLink v2LinkReqOk, V2Op.analyzeDone v2AnalyzeOk,
        V2Op.confirm {}, V2Op.executeDone v2ExecOk].foldl v2_apply
          (v2_start_campaign 0)).state) ∧
    (([V2Op.confirm {}].foldl v2_apply { v2JobExecuting with state := .complete }).state =
      V2State.complete) := by
  have h1 := v2_state_transitions_monotone (v2_start_campaign 0)
    [V2Op.submitLink v2LinkReqOk, V2Op.analyzeDone v2AnalyzeOk,
     V2Op.confirm {}, V2Op.executeDone v2ExecOk]
  have h2 := v2_state_transitions_monotone { v2JobExecuting with state := .complete }
    [V2Op.confirm {}]
  exact ⟨h1.1, h2.2 rfl⟩

/-- C5: once the V3 checkpoint stage (step 2) completes, the job
transitions to `awaiting_confirm` if and only if it was created in
confirmation mode (`review_mode`); otherwise the runner proceeds
directly through the remaining stages without pausing.  While paused,
the queue holds no event for any stage past the checkpoint; events for
steps 3-8 can only be produced by the resume thread that `v3_confirm`
spawns. -/
theorem v3_checkpoint_pause_iff_review_mode (h : V3Handlers) (rm : Bool)
    (flags : UploadFlags) (now : Nat) (title : String) (nb : Nat)
    (h1 : h.step1_product = .ok title) (h2 : h.step2_blog = .ok nb) :
    ∀ job, job = v3_start_campaign_worker h rm flags now →
      (job.state = .awaiting_confirm ↔ rm = true) ∧
      (rm = true → job.events.all (fun e => !v3PastCheckpoint e) = true) ∧
      (rm = true → ∀ eh : V3Handlers,
        (v3_resume (((v3_confirm (some job) {}).2).getD job) eh).state = .complete ∨
        (v3_resume (((v3_confirm (some job) {}).2).getD job) eh).state = .error) := by
  intro job hjob
  subst hjob
  cases rm with
  | true =>
    refine ⟨?_, ?_, ?_⟩
    · simp [v3_start_campaign_worker, V3WebPipeline.run, v3Steps12, h1, h2]
    · intro _
      cases hsh : h.step2_shorts with
      | exn m =>
        simp [v3_start_campaign_worker, V3WebPipeline.run, v3Steps12, h1, h2, hsh,
          v3PastCheckpoint]
      | ok ns =>
        simp [v3_start_campaign_worker, V3WebPipeline.run, v3Steps12, h1, h2, hsh,
          v3PastCheckpoint]
    · intro _ eh
      rcases h38 : v3Steps3to8 eh flags with ⟨evs2, r2⟩
      cases r2 with
      | exn m =>
        right
        simp [v3_start_campaign_worker, V3WebPipeline.run, v3Steps12, h1, h2,
          v3_confirm, v3_resume, h38]
      | ok r =>
        left
        simp [v3_start_campaign_worker, V3WebPipeline.run, v3Steps12, h1, h2,
          v3_confirm, v3_resume, h38]
  | false =>
    refine ⟨?_, by simp, by simp⟩
    rcases h38 : v3Steps3to8 h flags with ⟨evs2, r2⟩
    cases r2 with
    | exn m =>
      simp [v3_start_campaign_worker, V3WebPipeline.run, v3Steps12, h1, h2, h38]
    | ok r =>
      simp [v3_start_campaign_worker, V3WebPipeline.run, v3Steps12, h1, h2, h38]

/-- Witness for C5: with the all-success fixture, the review-mode job
pauses at `awaiting_confirm` with no post-checkpoint event queued, and
the non-review job does not pause. -/
theorem v3_checkpoint_pause_iff_review_mode_witness :
    (v3_start_campaign_worker v3HandlersOk true {} 0).state = .awaiting_confirm ∧
    (v3_start_campaign_worker v3HandlersOk true {} 0).events.all
      (fun e => !v3PastCheckpoint e) = true ∧
    ¬ (v3_start_campaign_worker v3HandlersOk false {} 0).state = .awaiting_confirm := by
  have ht := v3_checkpoint_pause_iff_review_mode v3HandlersOk true {} 0 "텀블러" 4 rfl rfl _ rfl
  have hf := v3_checkpoint_pause_iff_review_mode v3HandlersOk false {} 0 "텀블러" 4 rfl rfl _ rfl
  refine ⟨ht.1.mpr rfl, ht.2.1 rfl, fun hc => ?_⟩
  have := hf.1.mp hc
  simp at this

/-- C7: when a streamed job is terminal, the generator flushes every
event still buffered in the queue (in order, after whatever the polling
loop already delivered) and then emits exactly one terminal marker — a
`done`-style marker on success, an `error` marker on failure — and
closes (no output follows the marker).  For V1 `complete`, the marker
carries the results, which the worker always populates before setting
the terminal status (modelled by the `isSome` hypothesis). -/
theorem stream_terminal_flush_and_marker :
    (∀ (polls : List V1Poll) (rem : List V1QEvent) (job : V1Job),
      (job.status = "complete" → job.results.isSome →
        ∃ r, job.results = some r ∧
          stream_campaign_gen polls job rem =
            stream_campaign_loop polls ++ rem.map V1Out.event ++ [V1Out.done r]) ∧
      (job.status = "error" →
        stream_campaign_gen polls job rem =
          stream_campaign_loop polls ++ rem.map V1Out.event ++ [V1Out.errorOut job.error])) ∧
    (∀ (polls : List V3Poll) (rem : List V3QEvent) (job : V3JobRec),
      (job.state = .complete →
        v3_stream_gen polls job rem =
          v3_stream_loop polls 0 ++ rem.map V3Out.event ++ [V3Out.v3_done job.results]) ∧
      (job.state = .error →
        v3_stream_gen polls job rem =
          v3_stream_loop polls 0 ++ rem.map V3Out.event ++
            [V3Out.errorOut (job.error.getD "")])) := by
  constructor
  · intro polls rem job
    constructor
    · intro hst hres
      obtain ⟨r, hr⟩ := Option.isSome_iff_exists.mp hres
      exact ⟨r, hr, by simp [stream_campaign_gen, v1Markers, hst, hr]⟩
    · intro hst
      simp [stream_campaign_gen, v1Markers, hst]
  · intro polls rem job
    constructor
    · intro hst
      simp [v3_stream_gen, v3Markers, hst]
    · intro hst
      simp [v3_stream_gen, v3Markers, hst]

/-- Witness for C7: a failed V1 job's stream flushes the buffered error
event then emits exactly the error marker; a completed V3 job's stream
emits exactly the done marker. -/
theorem stream_terminal_flush_and_marker_witness :
    stream_campaign_gen [] v1ErrJob [V1QEvent.error "boom"] =
      [V1Out.event (V1QEvent.error "boom"), V1Out.errorOut (some "boom")] ∧
    v3_stream_gen [] v3CompleteJob [] = [V3Out.v3_done (some {})] := by
  constructor
  · have h := (stream_terminal_flush_and_marker.1 [] [V1QEvent.error "boom"] v1ErrJob).2 rfl
    rw [h]
    rfl
  · have h := (stream_terminal_flush_and_marker.2 [] [] v3CompleteJob).1 rfl
    rw [h]
    rfl

/-- The V1 stream loop yields nothing while the queue stays empty and
the job keeps running — there is no heartbeat branch. -/
theorem v1_loop_idle (n : Nat) :
    stream_campaign_loop (List.replicate n ⟨"running", []⟩) = [] := by
  induction n with
  | zero => rfl
  | succ k ih => simp [List.replicate_succ, stream_campaign_loop, ih]

/-- The V2 stream loop yields nothing while the queue stays empty and
the job keeps executing — there is no heartbeat branch. -/
theorem v2_loop_idle (n : Nat) :
    v2_stream_loop (List.replicate n ⟨V2State.executing, []⟩) = [] := by
  induction n with
  | zero => rfl
  | succ k ih => simp [List.replicate_succ, v2_stream_loop, ih]

/-- After `k + 1` consecutive idle polls completing an idle streak of
exactly `max_idle`, the V3 loop emits a heartbeat and resets. -/
theorem v3_loop_idle_heartbeat : ∀ (k t : Nat) (ps : List V3Poll),
    t + (k + 1) = v3_max_idle →
    v3_stream_loop (List.replicate (k + 1) ⟨V3State.executing, []⟩ ++ ps) t =
      V3Out.heartbeat :: v3_stream_loop ps 0 := by
  intro k
  induction k with
  | zero =>
    intro t ps ht
    have h300 : v3_max_idle ≤ t + 1 := by omega
    simp [List.replicate_succ, v3_stream_loop, h300]
  | succ k ih =>
    intro t ps ht
    have hlt : ¬ v3_max_idle ≤ t + 1 := by
      simp only [v3_max_idle] at ht ⊢
      omega
    simp only [List.replicate_succ, List.cons_append, v3_stream_loop, List.isEmpty_nil,
      if_true, if_neg hlt]
    have := ih (t + 1) ps (by omega)
    simp only [reduceCtorEq, false_or, if_false] at this ⊢
    simpa using this

/-- C8 corrected: of the three stream adapters only V3 emits a synthetic
heartbeat.  The V1 and V2 adapters emit nothing at all while their
queues stay empty, no matter how long the idle stretch (here an
arbitrary number of 0.3-second polls); the V3 adapter emits a heartbeat
after every 300 consecutive idle polls while the job is executing. -/
theorem heartbeat_only_v3_stream :
    (∀ n, stream_campaign_loop (List.replicate n ⟨"running", []⟩) = []) ∧
    (∀ n, v2_stream_loop (List.replicate n ⟨V2State.executing, []⟩) = []) ∧
    (∀ ps, v3_stream_loop
        (List.replicate v3_max_idle ⟨V3State.executing, []⟩ ++ ps) 0 =
      V3Out.heartbeat :: v3_stream_loop ps 0) := by
  refine ⟨v1_loop_idle, v2_loop_idle, fun ps => ?_⟩
  exact v3_loop_idle_heartbeat 299 0 ps rfl

/-- C8 counterexample to the claim as stated: during 400 consecutive
idle polls (two minutes — far past V3's 90-second heartbeat bound) the
V1 and V2 adapters for a running/executing job emit no output at all,
in particular no synthetic heartbeat. -/
theorem v1_v2_idle_emit_nothing :
    stream_campaign_loop (List.replicate 400 ⟨"running", []⟩) = [] ∧
    v2_stream_loop (List.replicate 400 ⟨V2State.executing, []⟩) = [] :=
  ⟨v1_loop_idle 400, v2_loop_idle 400⟩

end MCN
